import Mathlib

/-!
Verification of the conveyorbelt supervisor against its specification.

This file gives a shallow embedding of the parts of the source that the
claims concern: the change filter (src/event_filterer.rs), the supervisor
event handler (src/event_handler.rs), the testing handshake
(src/main.rs, src/lib.rs), the ownership handling of the browser child in
main (src/main.rs), the server configuration (src/server.rs), the project
locator (src/project_path.rs), and the child stdout/stderr reader loops
(common.rs).  Each definition is translated directly from the Rust source.
-/

namespace Conveyorbelt

/-! ## Event model (watchexec_events, as used by the source) -/

/-- File event kinds of watchexec_events::filekind::FileEventKind.  The
source only distinguishes Create, Modify and Remove from the rest, so the
inner kinds carried by the Rust constructors are dropped. -/
inductive FileEventKind
  | any
  | access
  | create
  | modify
  | remove
  | other
deriving DecidableEq

/-- watchexec_events::ProcessEnd. -/
inductive ProcessEnd
  | success
  | exitError (code : Int)
  | exitSignal (s : Int)
  | exitStop (code : Int)
  | exception (code : Int)
  | continued
deriving DecidableEq

/-- Event tags of watchexec_events::Tag, restricted to the variants the
source inspects: Path, FileEventKind, ProcessCompletion and Signal. -/
inductive Tag
  | path (p : String)
  | fileEventKind (k : FileEventKind)
  | processCompletion (outcome : Option ProcessEnd)
  | signal (s : Int)
deriving DecidableEq

/-- watchexec_events::Event: a list of tags plus a metadata map
(String keys to lists of String values). -/
structure Event where
  tags : List Tag
  metadata : List (String × List String)
deriving DecidableEq

/-- event.metadata.contains_key(k). -/
def Event.containsKey (e : Event) (k : String) : Bool :=
  e.metadata.any (fun kv => kv.1 = k)

/-- event.paths().count() > 0: whether any Path tag is present. -/
def Event.hasPath (e : Event) : Bool :=
  e.tags.any (fun t => match t with | Tag.path _ => true | _ => false)

/-- The first Path tag of the event, as used by DotGitFilterer. -/
def Event.firstPath (e : Event) : Option String :=
  e.tags.findSome? (fun t => match t with | Tag.path p => some p | _ => none)

/-- The first FileEventKind tag of the event, as used by ChangeFilterer. -/
def Event.firstKind (e : Event) : Option FileEventKind :=
  e.tags.findSome? (fun t => match t with | Tag.fileEventKind k => some k | _ => none)

/-- The first ProcessCompletion tag of the event, as used by the handler. -/
def Event.firstCompletion (e : Event) : Option (Option ProcessEnd) :=
  e.tags.findSome? (fun t => match t with | Tag.processCompletion c => some c | _ => none)

/-- The first Signal tag of the event (action.signals().next()). -/
def Event.firstSignal (e : Event) : Option Int :=
  e.tags.findSome? (fun t => match t with | Tag.signal s => some s | _ => none)

/-- An event carrying one ProcessCompletion tag, as the watch engine
delivers build completions. -/
def completionEvent (outcome : Option ProcessEnd) : Event :=
  { tags := [Tag.processCompletion outcome], metadata := [] }

/-- A filesystem event carrying a path and a file event kind. -/
def pathEvent (p : String) (k : FileEventKind) : Event :=
  { tags := [Tag.path p, Tag.fileEventKind k], metadata := [] }

/-! ## Change filter (src/event_filterer.rs) -/

/-- InitialBuildFilterer::check_event: accept when the metadata map has the
key "initial-build". -/
def InitialBuildFilterer.checkEvent (e : Event) : Bool :=
  e.containsKey "initial-build"

/-- DotGitFilterer::check_event: reject events whose path starts with
project_root/.git; events without a Path tag are accepted. -/
def DotGitFilterer.checkEvent (projectRoot : String) (e : Event) : Bool :=
  match e.firstPath with
  | none => true
  | some p => !(p.startsWith (projectRoot ++ "/.git"))

/-- ChangeFilterer::check_event, translated literally from
src/event_filterer.rs lines 72-87: the result is the NEGATION of
`matches!(kind, Some(Create(_) | Modify(_) | Remove(_)))`. -/
def ChangeFilterer.checkEvent (e : Event) : Bool :=
  !(match e.firstKind with
    | some FileEventKind.create => true
    | some FileEventKind.modify => true
    | some FileEventKind.remove => true
    | _ => false)

/-- EventFilterer::check_event: initial-build pass-through OR-ed with the
conjunction of the dot-git, ignore-rules and change sub-filters.  The
ignore sub-filter is an external library (watchexec_filterer_ignore), so it
is passed in as a parameter. -/
def EventFilterer.checkEvent (projectRoot : String) (ignoreCheck : Event → Bool)
    (e : Event) : Bool :=
  InitialBuildFilterer.checkEvent e ||
    (DotGitFilterer.checkEvent projectRoot e && ignoreCheck e &&
      ChangeFilterer.checkEvent e)

/-- initial_event() from src/event_handler.rs lines 161-166: no tags, and a
metadata map with the single key "initialize". -/
def initial_event : Event :=
  { tags := [], metadata := [("initialize", [])] }

/-! ## Supervisor event handler (src/event_handler.rs, fn new) -/

/-- The state the handler closes over and mutates: the queue flag
(is_build_queued), the number of live jobs (action.list_jobs()), a count of
builds started so far (action.create_job calls), the log lines emitted, and
whether a graceful quit was requested. -/
structure HandlerState where
  isBuildQueued : Bool
  liveJobs : Nat
  startedBuilds : Nat
  log : List String
  quit : Option Int
deriving DecidableEq

/-- The log message computed for each ProcessCompletion outcome
(src/event_handler.rs lines 121-137). -/
def processEndMessage : Option ProcessEnd → String
  | none => "build process ended in an unknown manner"
  | some ProcessEnd.success => "build command succeeded"
  | some (ProcessEnd.exitError n) => "build process exited with " ++ toString n
  | some (ProcessEnd.exitSignal s) => "build process exited with " ++ toString s
  | some (ProcessEnd.exitStop n) => "build process stopped with " ++ toString n
  | some (ProcessEnd.exception n) => "build process exception " ++ toString n
  | some ProcessEnd.continued => "build process continued"

/-- The outcomes matched by the drain arm of the handler
(src/event_handler.rs lines 141-145): the unknown case plus Success,
ExitError, ExitSignal and Exception.  ExitStop and Continued fall through. -/
def isDrainOutcome : Option ProcessEnd → Bool
  | none => true
  | some ProcessEnd.success => true
  | some (ProcessEnd.exitError _) => true
  | some (ProcessEnd.exitSignal _) => true
  | some (ProcessEnd.exception _) => true
  | _ => false

/-- The supervisor handler from src/event_handler.rs lines 81-159,
processing one event.  Note that the drain branch reads the queue flag and
creates a job when it is set, but contains no assignment writing the flag
back to false. -/
def handleEvent (s : HandlerState) (e : Event) : HandlerState :=
  match e.firstSignal with
  | some n =>
      { s with quit := some n
               log := s.log ++ ["Signal " ++ toString n ++ "; terminating"] }
  | none =>
      if e.containsKey "initial-build" || e.hasPath then
        if s.liveJobs > 0 then
          { s with isBuildQueued := true }
        else
          { s with liveJobs := s.liveJobs + 1
                   startedBuilds := s.startedBuilds + 1 }
      else
        match e.firstCompletion with
        | some outcome =>
            let s1 := { s with log := s.log ++ [processEndMessage outcome] }
            if isDrainOutcome outcome then
              if s1.isBuildQueued then
                { s1 with liveJobs := s1.liveJobs + 1
                          startedBuilds := s1.startedBuilds + 1 }
              else s1
            else s1
        | none => s

/-- Folding the handler over a sequence of delivered events (the watch
engine invokes the handler once per event thanks to zero throttling). -/
def runHandler (s : HandlerState) (es : List Event) : HandlerState :=
  es.foldl handleEvent s

/-! ## Theorems for claims C1, C2, C3 -/

/-- Claim C1 (code_bug evidence): with the queue flag set, a terminal build
completion starts a follow-up build but leaves the queue flag TRUE, and a
run consisting of one accepted path event during a build followed by two
terminal completions starts three builds in total, not at most two. -/
theorem c1_queue_flag_not_cleared_eval :
    (handleEvent { isBuildQueued := true, liveJobs := 1, startedBuilds := 1,
                   log := [], quit := none }
        (completionEvent (some ProcessEnd.success))).isBuildQueued = true
    ∧ (handleEvent { isBuildQueued := true, liveJobs := 1, startedBuilds := 1,
                     log := [], quit := none }
        (completionEvent (some ProcessEnd.success))).startedBuilds = 2
    ∧ (runHandler { isBuildQueued := false, liveJobs := 1, startedBuilds := 1,
                    log := [], quit := none }
        [pathEvent "a.html" FileEventKind.create,
         completionEvent (some ProcessEnd.success),
         completionEvent (some ProcessEnd.success)]).startedBuilds = 3 := by
  decide

/-- Claim C2 (code_bug evidence): ChangeFilterer::check_event REJECTS
events whose kind is Create, Modify or Remove, and ACCEPTS events lacking a
file event kind or carrying another kind, which is the exact opposite of
the claimed behaviour. -/
theorem c2_change_filterer_inverted_eval :
    ChangeFilterer.checkEvent (pathEvent "a.html" FileEventKind.create) = false
    ∧ ChangeFilterer.checkEvent
        { tags := [Tag.fileEventKind FileEventKind.modify], metadata := [] } = false
    ∧ ChangeFilterer.checkEvent
        { tags := [Tag.fileEventKind FileEventKind.remove], metadata := [] } = false
    ∧ ChangeFilterer.checkEvent { tags := [], metadata := [] } = true
    ∧ ChangeFilterer.checkEvent
        { tags := [Tag.fileEventKind FileEventKind.other], metadata := [] } = true := by
  decide

/-- Claim C3 (code_bug evidence): the synthetic bootstrap event carries the
metadata key "initialize", while InitialBuildFilterer checks for
"initial-build", so the sub-filter rejects it; with a rejecting ignore
sub-filter the whole filter rejects it (no unconditional accept), and the
handler does not start a build for it either. -/
theorem c3_initial_event_marker_mismatch_eval :
    InitialBuildFilterer.checkEvent initial_event = false
    ∧ EventFilterer.checkEvent "/project" (fun _ => false) initial_event = false
    ∧ (handleEvent { isBuildQueued := false, liveJobs := 0, startedBuilds := 0,
                     log := [], quit := none } initial_event).startedBuilds = 0 := by
  decide

/-- Claim C6: for a delivered ProcessCompletion event the handler always
logs the outcome message; it runs the coalesce-or-advance drain (starting a
build exactly when the queue flag is set) precisely on the terminal
outcomes (unknown, Success, ExitError, ExitSignal, Exception); and on any
non-terminal outcome (Continued, ExitStop) it only logs, changing nothing
else. -/
theorem c6_drain_on_terminal_outcomes (s : HandlerState) (o : Option ProcessEnd) :
    (handleEvent s (completionEvent o)).log = s.log ++ [processEndMessage o]
    ∧ (handleEvent s (completionEvent o)).startedBuilds
        = s.startedBuilds + (if isDrainOutcome o && s.isBuildQueued then 1 else 0)
    ∧ (isDrainOutcome o = false →
        handleEvent s (completionEvent o) = { s with log := s.log ++ [processEndMessage o] }) := by
  rcases s with ⟨q, j, st, lg, qt⟩
  rcases o with _ | pe
  · cases q <;>
      simp [handleEvent, completionEvent, Event.firstSignal, Event.containsKey,
        Event.hasPath, Event.firstCompletion, isDrainOutcome, List.findSome?]
  · cases pe <;> cases q <;>
      simp [handleEvent, completionEvent, Event.firstSignal, Event.containsKey,
        Event.hasPath, Event.firstCompletion, isDrainOutcome, List.findSome?]

/-- Witness for C6 at a concrete non-terminal outcome: Continued with the
queue flag set is logged but starts no build and leaves the state alone. -/
theorem c6_drain_on_terminal_outcomes_witness :
    handleEvent { isBuildQueued := true, liveJobs := 1, startedBuilds := 1,
                  log := [], quit := none }
        (completionEvent (some ProcessEnd.continued))
      = { isBuildQueued := true, liveJobs := 1, startedBuilds := 1,
          log := [] ++ [processEndMessage (some ProcessEnd.continued)], quit := none } :=
  (c6_drain_on_terminal_outcomes
    { isBuildQueued := true, liveJobs := 1, startedBuilds := 1, log := [], quit := none }
    (some ProcessEnd.continued)).2.2 rfl

/-! ## Testing handshake (src/main.rs lines 244-256, src/lib.rs lines 7-16) -/

/-- StateForTesting as declared in src/lib.rs lines 7-12: three fields. -/
structure StateForTesting where
  serve_port : Nat
  browser_debugging_address : String
  browser_pid : Nat
deriving DecidableEq

/-- StateForTesting::ENV_VAR from src/lib.rs line 15. -/
def StateForTesting.ENV_VAR : String := "_PRINT_STATE_FOR_TESTING"

/-- The field names serde serializes for StateForTesting, in declaration
order (derive(Serialize) on the struct in src/lib.rs). -/
def StateForTesting.serializedFields : List String :=
  ["serve_port", "browser_debugging_address", "browser_pid"]

/-- The environment variable the test harness sets (common.rs line 17). -/
def TESTING_MODE : String := "_TESTING_MODE"

/-- std::env::var(name).is_ok() over an explicit environment. -/
def envVarIsSet (env : List (String × String)) (name : String) : Bool :=
  env.any (fun kv => kv.1 = name)

/-- Compact serde_json serialization of the three-field StateForTesting. -/
def stateJson (st : StateForTesting) : String :=
  "\x7b\"serve_port\":" ++ toString st.serve_port
    ++ ",\"browser_debugging_address\":\"" ++ st.browser_debugging_address
    ++ "\",\"browser_pid\":" ++ toString st.browser_pid ++ "\x7d"

/-- The lines main writes to stdout (src/main.rs lines 244-256): one JSON
line when env var StateForTesting::ENV_VAR is set, nothing otherwise. -/
def mainStdoutLines (env : List (String × String)) (st : StateForTesting) : List String :=
  if envVarIsSet env StateForTesting.ENV_VAR then [stateJson st] else []

/-- Claim C4 (code_bug evidence): with _TESTING_MODE set (as the test
harness sets it) main writes NO handshake line, because it gates on
_PRINT_STATE_FOR_TESTING instead; when that other variable is set a line IS
written; and the serialized object has no serve_path field. -/
theorem c4_handshake_env_var_mismatch_eval :
    mainStdoutLines [(TESTING_MODE, "true")]
      { serve_port := 8080, browser_debugging_address := "ws://127.0.0.1:1", browser_pid := 42 }
      = []
    ∧ mainStdoutLines [(StateForTesting.ENV_VAR, "1")]
        { serve_port := 8080, browser_debugging_address := "ws://127.0.0.1:1", browser_pid := 42 }
      = [stateJson { serve_port := 8080, browser_debugging_address := "ws://127.0.0.1:1",
                     browser_pid := 42 }]
    ∧ StateForTesting.serializedFields.contains "serve_path" = false := by
  decide

/-! ## Startup sequence of main (src/main.rs) -/

/-- The observable steps of main, in source order.  Each Abort step models
a panicking unwrap or explicit panic at that point. -/
inductive MainStep
  | runRevParse | revParseAbort
  | runCheckIgnore | checkIgnoreAbort
  | spawnBuild | spawnBuildAbort
  | waitBuild | buildFailedAbort
  | bindServer | bindAbort
  | launchBrowser | browserLaunchAbort
  | obtainPid | pidAbort
  | printHandshake | serializeAbort
  | forgetBrowser
  | awaitServer | serverAbort
deriving DecidableEq

/-- The outcomes of the fallible operations main performs, in order. -/
structure MainEnv where
  revParseOk : Bool
  checkIgnoreOk : Bool
  buildSpawnOk : Bool
  buildExitOk : Bool
  bindOk : Bool
  browserLaunchOk : Bool
  pidOk : Bool
  serializeOk : Bool
  testingMode : Bool
  serverOk : Bool
deriving DecidableEq

/-- The step trace of main (src/main.rs lines 29-264) for given operation
outcomes: git rev-parse, then git check-ignore on the serve path (panic
when it does not report success), then spawning and awaiting the build,
binding the server, launching the browser, reading its pid, optionally
printing the handshake, then mem::forget(browser) and awaiting the
server. -/
def mainTrace (env : MainEnv) : List MainStep :=
  [MainStep.runRevParse] ++
  (if !env.revParseOk then [MainStep.revParseAbort] else
    [MainStep.runCheckIgnore] ++
    (if !env.checkIgnoreOk then [MainStep.checkIgnoreAbort] else
      [MainStep.spawnBuild] ++
      (if !env.buildSpawnOk then [MainStep.spawnBuildAbort] else
        [MainStep.waitBuild] ++
        (if !env.buildExitOk then [MainStep.buildFailedAbort] else
          [MainStep.bindServer] ++
          (if !env.bindOk then [MainStep.bindAbort] else
            [MainStep.launchBrowser] ++
            (if !env.browserLaunchOk then [MainStep.browserLaunchAbort] else
              [MainStep.obtainPid] ++
              (if !env.pidOk then [MainStep.pidAbort] else
                (if env.testingMode then
                  (if !env.serializeOk then [MainStep.serializeAbort] else
                    [MainStep.printHandshake] ++ [MainStep.forgetBrowser, MainStep.awaitServer]
                      ++ (if !env.serverOk then [MainStep.serverAbort] else []))
                 else
                  [MainStep.forgetBrowser, MainStep.awaitServer]
                    ++ (if !env.serverOk then [MainStep.serverAbort] else [])))))))))

/-- chromiumoxide launches the browser child with kill-on-drop behaviour
(the comment at src/main.rs lines 258-259); the destructor runs at the end
of main (or during an unwind) unless the handle was leaked with
mem::forget.  The browser child exists once Browser::launch succeeded. -/
def browserKilledOnDrop (env : MainEnv) : Bool :=
  ((mainTrace env).contains MainStep.launchBrowser && env.browserLaunchOk)
    && !((mainTrace env).contains MainStep.forgetBrowser)

/-- Claim C5: once the handshake has been printed (or, with testing mode
off, once main reaches the point of awaiting the server) the browser
handle has been forgotten, so its kill-on-drop destructor cannot run on
any exit of main; and every such path has already awaited the build child
(no live build is left to survive main). -/
theorem c5_browser_detached (env : MainEnv) :
    (MainStep.printHandshake ∈ mainTrace env → browserKilledOnDrop env = false)
    ∧ (MainStep.awaitServer ∈ mainTrace env → browserKilledOnDrop env = false)
    ∧ (MainStep.awaitServer ∈ mainTrace env → MainStep.waitBuild ∈ mainTrace env) := by
  rcases env with ⟨a, b, c, d, e, f, g, h, i, j⟩
  cases a <;> cases b <;> cases c <;> cases d <;> cases e <;> cases f <;> cases g <;>
    cases h <;> cases i <;> cases j <;> decide

/-- Witness for C5 at the all-successful environment: the handshake is in
the trace and the browser is not killed on drop. -/
theorem c5_browser_detached_witness :
    MainStep.printHandshake ∈
        mainTrace { revParseOk := true, checkIgnoreOk := true, buildSpawnOk := true,
                    buildExitOk := true, bindOk := true, browserLaunchOk := true,
                    pidOk := true, serializeOk := true, testingMode := true, serverOk := true }
    ∧ browserKilledOnDrop
        { revParseOk := true, checkIgnoreOk := true, buildSpawnOk := true,
          buildExitOk := true, bindOk := true, browserLaunchOk := true,
          pidOk := true, serializeOk := true, testingMode := true, serverOk := true } = false :=
  ⟨by decide,
   (c5_browser_detached
     { revParseOk := true, checkIgnoreOk := true, buildSpawnOk := true,
       buildExitOk := true, bindOk := true, browserLaunchOk := true,
       pidOk := true, serializeOk := true, testingMode := true, serverOk := true }).1
     (by decide)⟩

/-- Claim C10: when git check-ignore does not report success (the serve
path is not git ignored) main aborts without spawning the build, binding
the server or launching the browser; and whenever the build is spawned,
the check-ignore query ran and succeeded. -/
theorem c10_check_ignore_gates_build (env : MainEnv) :
    (env.checkIgnoreOk = false →
      MainStep.spawnBuild ∉ mainTrace env
      ∧ MainStep.bindServer ∉ mainTrace env
      ∧ MainStep.launchBrowser ∉ mainTrace env
      ∧ (env.revParseOk = true → MainStep.checkIgnoreAbort ∈ mainTrace env))
    ∧ (MainStep.spawnBuild ∈ mainTrace env →
        env.checkIgnoreOk = true ∧ MainStep.runCheckIgnore ∈ mainTrace env) := by
  rcases env with ⟨a, b, c, d, e, f, g, h, i, j⟩
  cases a <;> cases b <;> cases c <;> cases d <;> cases e <;> cases f <;> cases g <;>
    cases h <;> cases i <;> cases j <;> decide

/-- Witness for C10 at a concrete environment where check-ignore fails:
no build is spawned and main aborts at the check. -/
theorem c10_check_ignore_gates_build_witness :
    MainStep.spawnBuild ∉
        mainTrace { revParseOk := true, checkIgnoreOk := false, buildSpawnOk := true,
                    buildExitOk := true, bindOk := true, browserLaunchOk := true,
                    pidOk := true, serializeOk := true, testingMode := true, serverOk := true }
    ∧ MainStep.checkIgnoreAbort ∈
        mainTrace { revParseOk := true, checkIgnoreOk := false, buildSpawnOk := true,
                    buildExitOk := true, bindOk := true, browserLaunchOk := true,
                    pidOk := true, serializeOk := true, testingMode := true, serverOk := true } :=
  ⟨((c10_check_ignore_gates_build
      { revParseOk := true, checkIgnoreOk := false, buildSpawnOk := true,
        buildExitOk := true, bindOk := true, browserLaunchOk := true,
        pidOk := true, serializeOk := true, testingMode := true, serverOk := true }).1
      rfl).1,
   ((c10_check_ignore_gates_build
      { revParseOk := true, checkIgnoreOk := false, buildSpawnOk := true,
        buildExitOk := true, bindOk := true, browserLaunchOk := true,
        pidOk := true, serializeOk := true, testingMode := true, serverOk := true }).1
      rfl).2.2.2 rfl⟩

/-! ## HTTP server adapter (src/server.rs) -/

/-- static_web_server RequestHandlerOpts, with the fields Server::init
fills in.  Paths are strings; the maintenance status is the numeric HTTP
code. -/
structure RequestHandlerOpts where
  root_dir : String
  compression : Bool
  compression_static : Bool
  cors : Option String
  security_headers : Bool
  cache_control_headers : Bool
  page404 : String
  page50x : String
  index_files : List String
  log_remote_address : Bool
  log_x_real_ip : Bool
  log_forwarded_for : Bool
  trusted_proxies : List String
  redirect_trailing_slash : Bool
  ignore_hidden_files : Bool
  disable_symlinks : Bool
  accept_markdown : Bool
  health : Bool
  maintenance_mode : Bool
  maintenance_mode_status : Nat
  maintenance_mode_file : String
  advanced_opts : Option Unit
deriving DecidableEq

/-- PathBuf::join of a single component. -/
def pathJoin (p c : String) : String := p ++ "/" ++ c

/-- The result of Server::init: the handler options, the requested bind
address (ip, port 0), the port the OS actually chose, and the two socket
options set on the listener. -/
structure ServerInit where
  opts : RequestHandlerOpts
  bindIp : Nat × Nat × Nat × Nat
  bindPort : Nat
  chosenPort : Nat
  tcpNodelay : Bool
  nonblocking : Bool
deriving DecidableEq

/-- Server::init from src/server.rs lines 18-69, translated field by
field.  The port the OS picks for a bind to port 0 is a parameter. -/
def Server.init (path : String) (osChosenPort : Nat) : ServerInit :=
  { opts :=
      { root_dir := path
        compression := false
        compression_static := false
        cors := none
        security_headers := false
        cache_control_headers := false
        page404 := pathJoin path "404.html"
        page50x := ""
        index_files := ["index.html"]
        log_remote_address := false
        log_x_real_ip := false
        log_forwarded_for := false
        trusted_proxies := []
        redirect_trailing_slash := false
        ignore_hidden_files := true
        disable_symlinks := true
        accept_markdown := false
        health := false
        maintenance_mode := false
        maintenance_mode_status := 503
        maintenance_mode_file := ""
        advanced_opts := none }
    bindIp := (127, 0, 0, 1)
    bindPort := 0
    chosenPort := osChosenPort
    tcpNodelay := true
    nonblocking := true }

/-- Server::port from src/server.rs lines 71-73. -/
def Server.port (s : ServerInit) : Nat := s.chosenPort

/-- Claim C7: Server::init binds 127.0.0.1 with OS-chosen port 0, exposes
the chosen port via port(), and configures the static file handler with
the contractual values: root = serve dir, index = [index.html],
404 page = serve/404.html, hidden files ignored, symlinks disabled, all of
compression, CORS, security headers, cache headers, health, maintenance
and markdown off, no trusted proxies, TCP nodelay on, listener
non-blocking. -/
theorem c7_server_init_config (path : String) (osChosenPort : Nat) :
    Server.port (Server.init path osChosenPort) = osChosenPort
    ∧ (Server.init path osChosenPort).bindIp = (127, 0, 0, 1)
    ∧ (Server.init path osChosenPort).bindPort = 0
    ∧ (Server.init path osChosenPort).opts.root_dir = path
    ∧ (Server.init path osChosenPort).opts.index_files = ["index.html"]
    ∧ (Server.init path osChosenPort).opts.page404 = pathJoin path "404.html"
    ∧ (Server.init path osChosenPort).opts.ignore_hidden_files = true
    ∧ (Server.init path osChosenPort).opts.disable_symlinks = true
    ∧ (Server.init path osChosenPort).opts.compression = false
    ∧ (Server.init path osChosenPort).opts.compression_static = false
    ∧ (Server.init path osChosenPort).opts.cors = none
    ∧ (Server.init path osChosenPort).opts.security_headers = false
    ∧ (Server.init path osChosenPort).opts.cache_control_headers = false
    ∧ (Server.init path osChosenPort).opts.health = false
    ∧ (Server.init path osChosenPort).opts.maintenance_mode = false
    ∧ (Server.init path osChosenPort).opts.accept_markdown = false
    ∧ (Server.init path osChosenPort).opts.trusted_proxies = []
    ∧ (Server.init path osChosenPort).tcpNodelay = true
    ∧ (Server.init path osChosenPort).nonblocking = true :=
  ⟨rfl, rfl, rfl, rfl, rfl, rfl, rfl, rfl, rfl, rfl, rfl, rfl, rfl, rfl, rfl, rfl,
   rfl, rfl, rfl⟩

/-! ## Project locator (src/project_path.rs) -/

/-- The outcome of running the repository tool: its exit-status success
bit, the display form of the status, and the captured stdout and stderr
(as text). -/
structure ToolOutput where
  statusSuccess : Bool
  statusDisplay : String
  stdout : String
  stderr : String
deriving DecidableEq

/-- The result of resolve, separating the two error shapes the source
produces: the failed-to-run context error and the non-success bail. -/
inductive ResolveResult
  | ok (path : String)
  | failedToRun (message : String)
  | commandFailed (message : String)
deriving DecidableEq

/-- The context message attached when the tool cannot be executed
(src/project_path.rs line 15). -/
def failedToRunMessage (e : String) : String :=
  ("failed to run \"git\" \"rev-parse\" \"--show-toplevel\": ") ++ e

/-- The bail message for a non-success exit status
(src/project_path.rs lines 18-23); the tool stderr is its final part. -/
def commandFailedMessage (statusDisplay stderr : String) : String :=
  (("command \"git\" \"rev-parse\" \"--show-toplevel\" exited with " ++ statusDisplay)
      ++ ". stderr: ")
    ++ stderr

/-- str::trim_end: drop trailing whitespace characters. -/
def rustTrimEnd (s : String) : String :=
  String.mk ((s.data.reverse.dropWhile Char.isWhitespace).reverse)

/-- project_path::resolve from src/project_path.rs lines 6-34, over the
outcome of running the tool: a spawn failure becomes the failed-to-run
error, a non-success status becomes the bail carrying stderr, and success
yields the stdout with trailing whitespace trimmed. -/
def resolve (runResult : Except String ToolOutput) : ResolveResult :=
  match runResult with
  | Except.error e => ResolveResult.failedToRun (failedToRunMessage e)
  | Except.ok o =>
      if !o.statusSuccess then
        ResolveResult.commandFailed (commandFailedMessage o.statusDisplay o.stderr)
      else
        ResolveResult.ok (rustTrimEnd o.stdout)

/-- Claim C8: resolve returns the trimmed stdout on success, a
commandFailed error whose message ends with the tool stderr on any
non-success status, and a distinct failedToRun error when the tool cannot
be executed; trailing whitespace really is trimmed. -/
theorem c8_resolve_contract :
    (∀ e, resolve (Except.error e) = ResolveResult.failedToRun (failedToRunMessage e))
    ∧ (∀ o : ToolOutput, o.statusSuccess = true →
        resolve (Except.ok o) = ResolveResult.ok (rustTrimEnd o.stdout))
    ∧ (∀ o : ToolOutput, o.statusSuccess = false →
        resolve (Except.ok o)
          = ResolveResult.commandFailed (commandFailedMessage o.statusDisplay o.stderr)
        ∧ ∃ p, commandFailedMessage o.statusDisplay o.stderr = p ++ o.stderr)
    ∧ rustTrimEnd "/home/user/project\n" = "/home/user/project" := by
  refine ⟨fun e => rfl, fun o h => ?_, fun o h =>
    ⟨?_, ("command \"git\" \"rev-parse\" \"--show-toplevel\" exited with "
            ++ o.statusDisplay) ++ ". stderr: ", rfl⟩, by decide⟩
  · simp [resolve, h]
  · simp [resolve, h]

/-- Witness for C8 at concrete tool outcomes: a successful run with a
trailing newline resolves to the trimmed path, and a failing run yields
the commandFailed error surfacing stderr. -/
theorem c8_resolve_contract_witness :
    resolve (Except.ok { statusSuccess := true, statusDisplay := "exit status: 0",
                         stdout := "/repo\n", stderr := "" }) = ResolveResult.ok "/repo"
    ∧ resolve (Except.ok { statusSuccess := false, statusDisplay := "exit status: 128",
                           stdout := "", stderr := "fatal: not a git repository" })
        = ResolveResult.commandFailed
            (commandFailedMessage "exit status: 128" "fatal: not a git repository") := by
  constructor
  · have h := c8_resolve_contract.2.1
      { statusSuccess := true, statusDisplay := "exit status: 0",
        stdout := "/repo\n", stderr := "" } rfl
    rw [h]
    decide
  · exact (c8_resolve_contract.2.2.1
      { statusSuccess := false, statusDisplay := "exit status: 128",
        stdout := "", stderr := "fatal: not a git repository" } rfl).1

/-! ## Child output reader loops (common.rs, trait ForStdoutputLine) -/

/-- What the line iterator over a child stream yields on one call: a line
(Some(Ok(line))) or a read error (Some(Err(e))).  Once the underlying
stream has ended the iterator yields None forever, modelled by the yield
list running out. -/
inductive ReadYield
  | line (s : String)
  | ioError (e : String)
deriving DecidableEq

/-- What a reader task has done after a bounded number of loop
iterations: whether the loop has exited, the lines passed to the callback,
and the warn-level log records emitted. -/
structure ReaderOutcome where
  exited : Bool
  emitted : List String
  warnLog : List String
deriving DecidableEq

/-- The reader loop body from common.rs lines 29-35 and 44-50 (and
identically lines 61-67 and 76-82 for the async impl):
`loop { if let Some(Ok(line)) = next() { f(line) } }`.  The callback runs
on a line; a yielded Err and an exhausted stream both fall outside the
pattern, so the body does nothing for them; no arm breaks the loop and no
arm logs.  fuel bounds how many iterations we observe. -/
def readerLoop (fuel : Nat) (pending : List ReadYield)
    (emitted warnLog : List String) : ReaderOutcome :=
  match fuel with
  | 0 => { exited := false, emitted := emitted, warnLog := warnLog }
  | fuel' + 1 =>
      match pending with
      | [] => readerLoop fuel' [] emitted warnLog
      | ReadYield.line s :: rest => readerLoop fuel' rest (emitted ++ [s]) warnLog
      | ReadYield.ioError _ :: rest => readerLoop fuel' rest emitted warnLog

/-- Helper: the reader loop never exits and never logs, for any stream
content and any number of observed iterations. -/
theorem readerLoop_runs_forever (fuel : Nat) :
    ∀ (pending : List ReadYield) (emitted warnLog : List String),
      (readerLoop fuel pending emitted warnLog).exited = false
      ∧ (readerLoop fuel pending emitted warnLog).warnLog = warnLog := by
  induction fuel with
  | zero => intro pending emitted warnLog; exact ⟨rfl, rfl⟩
  | succ fuel' ih =>
      intro pending emitted warnLog
      match pending with
      | [] => exact ih [] emitted warnLog
      | ReadYield.line s :: rest => exact ih rest (emitted ++ [s]) warnLog
      | ReadYield.ioError e :: rest => exact ih rest emitted warnLog

/-- Claim C9 (code_bug evidence): however many iterations run, the reader
loop never exits - neither after a read error nor after the stream ends -
and it emits no warn-level record for an error; in particular, on an
already-ended stream and on a stream yielding one read error the loop is
still running with an empty warn log. -/
theorem c9_reader_never_exits_eval (fuel : Nat) (pending : List ReadYield) :
    (readerLoop fuel pending [] []).exited = false
    ∧ (readerLoop fuel pending [] []).warnLog = []
    ∧ (readerLoop fuel [] [] []).exited = false
    ∧ (readerLoop fuel [ReadYield.ioError "broken pipe"] [] []).exited = false :=
  ⟨(readerLoop_runs_forever fuel pending [] []).1,
   (readerLoop_runs_forever fuel pending [] []).2,
   (readerLoop_runs_forever fuel [] [] []).1,
   (readerLoop_runs_forever fuel [ReadYield.ioError "broken pipe"] [] []).1⟩

end Conveyorbelt
